import Mathlib

/-!
Verification development for the scopeview repository (microscope camera
viewer).  The Python sources `microscope_capture.py`, `microscope_devices.py`
and `microscope_viewer.py` are shallowly embedded below: pure helper
functions become Lean functions, the viewer's streaming loop becomes an
executable interpreter over an explicit script of read / re-acquisition
outcomes, and Python floats are modelled as rationals (only order
comparisons and exact clamping arithmetic occur in the embedded code).
-/

namespace ScopeView

/-! ## Format matching (`microscope_capture.py`) -/

/-- A capture format descriptor as produced by pygrabber's
`get_formats()`: a Python dict; `dict.get` yields `None` for missing keys,
hence every field is an `Option`. -/
structure Fmt where
  width : Option Int
  height : Option Int
  min_framerate : Option ℚ
  max_framerate : Option ℚ
  media_type_str : Option String
  index : Nat
deriving DecidableEq, Repr

/-- The user-requested constraints (`args.width`, `args.height`, `args.fps`,
`args.fourcc`); `none` models Python `None`. -/
structure CapArgs where
  width : Option Int
  height : Option Int
  fps : Option ℚ
  fourcc : Option String
deriving DecidableEq, Repr

/-- Python truthiness of an optional int (`if args.width:`): `None` and `0`
are falsy. -/
def intTruthy : Option Int → Bool
  | none => false
  | some v => decide (v ≠ 0)

/-- Python truthiness for `args.fps`, returning the value when truthy. -/
def fpsVal : CapArgs → Option ℚ
  | a => match a.fps with
    | none => none
    | some q => if q = 0 then none else some q

def lower_str (s : String) : String := String.mk (s.toList.map Char.toLower)

def upper_str (s : String) : String := String.mk (s.toList.map Char.toUpper)

/-- Python `str.strip()`: remove leading and trailing whitespace. -/
def py_strip (s : String) : String :=
  String.mk (((s.toList.dropWhile Char.isWhitespace).reverse.dropWhile
    Char.isWhitespace).reverse)

/-- Python `int(token)` for a digit string. -/
def py_to_nat (s : String) : Nat :=
  s.toList.foldl (fun n c => n * 10 + (c.toNat - 48)) 0

/-- The sentinel pixel-format tokens meaning "unforced". -/
def sentinelFourccs : List String := ["auto", "default", "none"]

/-- `fourcc_value = (args.fourcc or "").strip()`. -/
def fourccValue (a : CapArgs) : String := py_strip (a.fourcc.getD "")

/-- Whether a pixel-format constraint is actually forced:
`fourcc_value and fourcc_value.lower() not in {"auto","default","none"}`. -/
def fourccForced (a : CapArgs) : Bool :=
  decide (fourccValue a ≠ "" ∧ lower_str (fourccValue a) ∉ sentinelFourccs)

/-- Width clause of `_format_matches`:
`if args.width and fmt.get("width") != args.width: return False`. -/
def widthOk (fmt : Fmt) (a : CapArgs) : Bool :=
  match a.width with
  | none => true
  | some w => if w = 0 then true else decide (fmt.width = some w)

/-- Height clause of `_format_matches`. -/
def heightOk (fmt : Fmt) (a : CapArgs) : Bool :=
  match a.height with
  | none => true
  | some h => if h = 0 then true else decide (fmt.height = some h)

/-- Fps clause of `_format_matches`:
`min_fps = fmt.get("min_framerate") or 0`; likewise for max; require
`min_fps <= args.fps <= max_fps`. -/
def fpsOk (fmt : Fmt) (a : CapArgs) : Bool :=
  match fpsVal a with
  | none => true
  | some q =>
      decide (fmt.min_framerate.getD 0 ≤ q ∧ q ≤ fmt.max_framerate.getD 0)

/-- Fourcc clause of `_format_matches`: the requested code is uppercased,
`YUYV` additionally admits `YUY2`, and the descriptor's `media_type_str`
must be in the allowed set (a missing `media_type_str` never matches). -/
def fourccOk (fmt : Fmt) (a : CapArgs) : Bool :=
  if fourccForced a then
    let requested := upper_str (fourccValue a)
    let allowed := if requested = "YUYV" then [requested, "YUY2"] else [requested]
    match fmt.media_type_str with
    | some m => decide (m ∈ allowed)
    | none => false
  else true

/-- `_format_matches(fmt, args)`. -/
def format_matches (fmt : Fmt) (a : CapArgs) : Bool :=
  widthOk fmt a && heightOk fmt a && fpsOk fmt a && fourccOk fmt a

/-- Whether any constraint is set, i.e. the negation of the early
`return None` guard of `_choose_format`. -/
def hasConstraint (a : CapArgs) : Bool :=
  intTruthy a.width || intTruthy a.height || (fpsVal a).isSome || fourccForced a

/-- The sort key used by `_choose_format` when an fps was requested:
`abs(args.fps - max(min(args.fps, f.get("max_framerate") or 0),
f.get("min_framerate") or 0))`. -/
def fpsKey (q : ℚ) (fmt : Fmt) : ℚ :=
  |q - max (min q (fmt.max_framerate.getD 0)) (fmt.min_framerate.getD 0)|

/-- `_choose_format(formats, args)`.  Python's `list.sort` is a stable
sort; it is modelled by Mathlib's stable `List.insertionSort` on the same
key order. -/
def choose_format (formats : List Fmt) (a : CapArgs) : Option Fmt :=
  if hasConstraint a then
    let ms := formats.filter (fun f => format_matches f a)
    if ms.isEmpty then none
    else
      match fpsVal a with
      | some q => (ms.insertionSort (fun f g => fpsKey q f ≤ fpsKey q g)).head?
      | none => ms.head?
  else none

/-! ## The pygrabber capture backend (`microscope_capture.py`) -/

/-- The observable state of a `PyGrabberCapture`: `_width`, `_height`,
`_fps`, `_opened`.  Frames are modelled by their `(height, width)` shape. -/
structure PyGrabberState where
  width : Nat
  height : Nat
  fps : ℚ
  opened : Bool
deriving DecidableEq, Repr

/-- `PyGrabberCapture.__init__`: select a format via `_choose_format`; when
one is selected, `_fps` is `args.fps` if that is truthy, else the selected
descriptor's `max_framerate or 0`; `_width`/`_height` start at 0. -/
def pygrabber_init (formats : List Fmt) (a : CapArgs) : PyGrabberState :=
  let selected := choose_format formats a
  let fps : ℚ :=
    match selected with
    | some f =>
        match fpsVal a with
        | some q => q
        | none => f.max_framerate.getD 0
    | none => 0
  { width := 0, height := 0, fps := fps, opened := true }

/-- `PyGrabberCapture.read`: the environment either delivers a frame of
shape `(height, width)` within the timeout or not; on success the state's
`_height`/`_width` are updated from the frame's shape. -/
def pygrabber_read (s : PyGrabberState) (frame : Option (Nat × Nat)) :
    Bool × PyGrabberState :=
  if s.opened then
    match frame with
    | some (h, w) => (true, { s with height := h, width := w })
    | none => (false, s)
  else (false, s)

/-- `open_pygrabber_capture`: construct the capture and require one
successful probe read; otherwise release and report failure. -/
def open_pygrabber_capture (formats : List Fmt) (a : CapArgs)
    (firstFrame : Option (Nat × Nat)) : Option PyGrabberState :=
  let s := pygrabber_init formats a
  let r := pygrabber_read s firstFrame
  if r.1 then some r.2 else none

/-- `PyGrabberCapture.get(cv2.CAP_PROP_FPS)`. -/
def pygrabber_get_fps (s : PyGrabberState) : ℚ := s.fps

/-- `PyGrabberCapture.get(cv2.CAP_PROP_FOURCC)` is the constant `0.0`. -/
def pygrabber_get_fourcc (_s : PyGrabberState) : ℚ := 0

/-- `describe_fourcc` (`microscope_viewer.py`): `0` maps to `"UNKNOWN"`,
otherwise the four little-endian bytes are decoded as characters. -/
def describe_fourcc (raw : Int) : String :=
  if raw = 0 then "UNKNOWN"
  else String.mk ((List.range 4).map (fun i => Char.ofNat ((raw.toNat >>> (8 * i)) % 256)))

/-- What `report_stream_state` prints for a pygrabber capture's pixel
format: `describe_fourcc(capture.get(cv2.CAP_PROP_FOURCC))`. -/
def pygrabber_reported_fourcc (s : PyGrabberState) : String :=
  describe_fourcc ⌊pygrabber_get_fourcc s⌋

/-! ## Device resolution (`microscope_devices.py`) -/

/-- The resolved device reference: a numeric index (Windows) or a
path/name string (POSIX pass-through). -/
inductive DeviceRef where
  | index (n : Nat)
  | path (s : String)
deriving DecidableEq, Repr

/-- Python `str.isdigit` restricted to ASCII: nonempty and all digits. -/
def pyIsDigit (s : String) : Bool := s ≠ "" && s.toList.all Char.isDigit

/-- Python substring test `needle in hay`. -/
def pyIn (needle hay : String) : Bool := decide (needle.toList <:+: hay.toList)

/-- The enumeration loop of `_find_device_index`, carrying the running
index. -/
def find_device_index_from (nameLower : String) (i : Nat) :
    List String → Option Nat
  | [] => none
  | d :: ds =>
      if pyIn nameLower (lower_str d) then some i
      else find_device_index_from nameLower (i + 1) ds

/-- `_find_device_index(name, devices)`: first enumeration index whose
name contains `name` case-insensitively, else `None`. -/
def find_device_index (name : String) (devices : List String) : Option Nat :=
  find_device_index_from (lower_str name) 0 devices

/-- `pathlib.Path(p).name`: the final path component. -/
def path_name (p : String) : String :=
  String.mk (((p.toList.splitOn '/').getLast?).getD p.toList)

/-- The `RuntimeError` message raised when pygrabber is missing. -/
def listErrorMsg : String :=
  "DirectShow device listing requires pygrabber. Install dependencies with 'pip install -r requirements.txt'."

/-- `resolve_device(device_arg, preferred_name)`.  The platform test
`is_windows()` and the two enumeration collaborators are injected:
`winDevices = none` models `_list_windows_devices` raising `RuntimeError`,
`v4lDevices` is the result of `_list_v4l_devices()`. -/
def resolve_device (win : Bool) (winDevices : Option (List String))
    (v4lDevices : List String) (deviceArg : Option String)
    (preferredName : String) : Except String (DeviceRef × List String) :=
  if win then
    let devices := winDevices.getD []
    match deviceArg with
    | none =>
        let idx := if devices ≠ [] then find_device_index preferredName devices else none
        match idx with
        | some i => .ok (.index i, devices)
        | none => .ok (.index 0, devices)
    | some arg =>
        let token := py_strip arg
        if pyIsDigit token then .ok (.index (py_to_nat token), devices)
        else
          match (if devices ≠ [] then find_device_index token devices else none) with
          | some i => .ok (.index i, devices)
          | none =>
              let base := "Device '" ++ arg ++ "' was not found. Use --list-devices to see cameras."
              .error (if winDevices = none then base ++ "\n" ++ listErrorMsg else base)
  else
    let devices := v4lDevices
    match deviceArg with
    | some s =>
        if s ≠ "" then .ok (.path s, devices)
        else
          match devices.find? (fun p => pyIn (lower_str preferredName) (lower_str (path_name p))) with
          | some p => .ok (.path p, devices)
          | none =>
              match devices with
              | d :: _ => .ok (.path d, devices)
              | [] => .ok (.index 0, devices)
    | none =>
        match devices.find? (fun p => pyIn (lower_str preferredName) (lower_str (path_name p))) with
        | some p => .ok (.path p, devices)
        | none =>
            match devices with
            | d :: _ => .ok (.path d, devices)
            | [] => .ok (.index 0, devices)

/-! ## The viewer's streaming loop (`microscope_viewer.py`, `main`)

The `while True` loop of `main` is embedded as an executable interpreter
over a script of environment outcomes: one `ReadEv` per `capture.read()`
call (carrying, for a successful read, the frame and the boolean that
`render_frame` will return for it), and one `ReacqEv` per
`open_with_backends` call made from the recovery path (carrying, on
success, the primed probe frame together with its render outcome — the
primed frame is stored in `pending_frame` and consumed as a successful
read on the next iteration, which the interpreter performs inline).
-/

/-- Outcome of one `capture.read()` call; `cont` is what `render_frame`
returns for the obtained frame. -/
inductive ReadEv where
  | ok (frame : Nat) (cont : Bool)
  | fail
deriving DecidableEq, Repr

/-- Outcome of one recovery-path `open_with_backends` call; `cont` is what
`render_frame` returns for the primed frame. -/
inductive ReacqEv where
  | ok (frame : Nat) (cont : Bool)
  | fail
deriving DecidableEq, Repr

/-- The reasons the loop terminates. -/
inductive StopReason where
  | operatorQuit
  | signalLost
  | unableToRecover
deriving DecidableEq, Repr

/-- Externally observable actions of the loop, in order. -/
inductive Act where
  | sleep10
  | render (frame : Nat)
  | release
  | waitRetry
  | reacquire
  | stop (r : StopReason)
deriving DecidableEq, Repr

/-- The loop's tunables: `args.max_empty`, `args.max_reconnects`,
`args.auto_retry`. -/
structure LoopArgs where
  max_empty : Nat
  max_reconnects : Nat
  auto_retry : Bool
deriving DecidableEq, Repr

/-- Result of running the loop on a finite script: the action trace, the
termination reason (`none` when the script ran out first), and whether the
local variable `capture` still holds a handle at that point (`false`
exactly when the handle was released without a replacement). -/
structure RunResult where
  trace : List Act
  stopped : Option StopReason
  captureOpen : Bool
deriving DecidableEq, Repr

/-- Prepend an action to a run result's trace. -/
def RunResult.push (a : Act) (r : RunResult) : RunResult :=
  { r with trace := a :: r.trace }

/-- The streaming loop, starting from `consecutive_failures = cf` and
`reconnects = rc` with no pending frame.  A successful read (or the
pending primed frame after a successful re-acquisition) resets both
counters to 0 and renders; a failed read increments
`consecutive_failures`, sleeps ~10ms while below `max_empty`, and at
`max_empty` either stops with the signal-lost report (auto-retry off or
`reconnects >= max_reconnects`) or releases the handle, waits
`retry_delay` and re-acquires; a failed re-acquisition stops the session,
a successful one primes a frame whose render happens next. -/
def stream_loop (a : LoopArgs) : Nat → Nat → List ReadEv → List ReacqEv → RunResult
  | _, _, [], _ => { trace := [], stopped := none, captureOpen := true }
  | _, _, ReadEv.ok f cont :: rs, qs =>
      if cont then (stream_loop a 0 0 rs qs).push (.render f)
      else { trace := [.render f, .stop .operatorQuit],
             stopped := some .operatorQuit, captureOpen := true }
  | cf, rc, ReadEv.fail :: rs, qs =>
      if cf + 1 < a.max_empty then (stream_loop a (cf + 1) rc rs qs).push .sleep10
      else if a.auto_retry = false ∨ a.max_reconnects ≤ rc then
        { trace := [.stop .signalLost], stopped := some .signalLost, captureOpen := true }
      else
        match qs with
        | [] => { trace := [.release, .waitRetry, .reacquire],
                  stopped := none, captureOpen := false }
        | ReacqEv.ok f cont :: qs' =>
            if cont then
              ((((stream_loop a 0 0 rs qs').push (.render f)).push .reacquire).push
                .waitRetry).push .release
            else { trace := [.release, .waitRetry, .reacquire, .render f, .stop .operatorQuit],
                   stopped := some .operatorQuit, captureOpen := true }
        | ReacqEv.fail :: _ =>
            { trace := [.release, .waitRetry, .reacquire, .stop .unableToRecover],
              stopped := some .unableToRecover, captureOpen := false }

/-- The `finally` block of `main`: `capture.release()` followed by
`shutdown_display(...)`.  When the loop exited with `capture = None`
(failed re-acquisition), `capture.release()` raises `AttributeError` on
`NoneType` and `shutdown_display` is never reached. -/
def finally_cleanup (captureOpen : Bool) : Except String Unit :=
  if captureOpen then .ok ()
  else .error "AttributeError: NoneType has no release"

/-- The reconnect-candidate replanning of `main` (lines 486-492): when an
active backend label and API id are known, that pair is moved to the front
and filtered out of the rest of the base plan. -/
def replan_on_reconnect (base : List (String × Option Int))
    (activeLabel : Option String) (activeApi : Option Int) :
    List (String × Option Int) :=
  match activeLabel, activeApi with
  | some lbl, some api =>
      if lbl = "" then base
      else (lbl, some api) :: base.filter (fun c => c ≠ (lbl, some api))
  | _, _ => base

/-! ## Helper lemmas -/

theorem head?_filter_eq_find? {α : Type} (p : α → Bool) :
    ∀ l : List α, (l.filter p).head? = l.find? p := by
  intro l
  induction l with
  | nil => rfl
  | cons a l ih =>
      simp only [List.filter, List.find?]
      cases hpa : p a
      · simp [ih]
      · simp

theorem pairwise_of_forall_mem {α : Type} {R : α → α → Prop} :
    ∀ {l : List α}, (∀ x ∈ l, ∀ y ∈ l, R x y) → l.Pairwise R := by
  intro l
  induction l with
  | nil => intro _; exact List.Pairwise.nil
  | cons a l ih =>
      intro H
      refine List.Pairwise.cons ?_ (ih ?_)
      · intro y hy
        exact H a (List.mem_cons_self a l) y (List.mem_cons_of_mem a hy)
      · intro x hx y hy
        exact H x (List.mem_cons_of_mem a hx) y (List.mem_cons_of_mem a hy)

/-- A format that matches under a truthy fps request has clamp distance 0:
its framerate range contains the requested fps. -/
theorem fpsKey_eq_zero_of_matches {q : ℚ} {f : Fmt} {a : CapArgs}
    (hq : fpsVal a = some q) (hm : format_matches f a = true) :
    fpsKey q f = 0 := by
  have hfps : fpsOk f a = true := by
    simp only [format_matches, Bool.and_eq_true] at hm
    exact hm.1.2
  rw [fpsOk, hq] at hfps
  rw [decide_eq_true_eq] at hfps
  obtain ⟨h1, h2⟩ := hfps
  rw [fpsKey, min_eq_left h2, max_eq_left h1, sub_self, abs_zero]

/-! ## Claims about format matching -/

/-- C8 counterexample: the claim asserts that a request for `YUY2` matches
a descriptor whose encoding is `YUYV`; on the code, `_format_matches`
rejects that pairing (the synonym set is only added when the request is
`YUYV`). -/
theorem yuy2_request_rejects_yuyv_descriptor :
    format_matches ⟨none, none, none, none, some "YUYV", 0⟩
      ⟨none, none, none, some "YUY2"⟩ = false := by
  decide

/-- C8 (amended): the `YUYV`/`YUY2` synonymy is one-directional: a `YUYV`
request matches descriptors with encoding `YUYV` or `YUY2`, while a `YUY2`
request matches only descriptors with encoding `YUY2` and rejects
`YUYV`. -/
theorem yuyv_yuy2_synonym_one_directional (fmt : Fmt) :
    (fmt.media_type_str = some "YUY2" →
      format_matches fmt ⟨none, none, none, some "YUYV"⟩ = true)
  ∧ (fmt.media_type_str = some "YUYV" →
      format_matches fmt ⟨none, none, none, some "YUYV"⟩ = true)
  ∧ (fmt.media_type_str = some "YUY2" →
      format_matches fmt ⟨none, none, none, some "YUY2"⟩ = true)
  ∧ (fmt.media_type_str = some "YUYV" →
      format_matches fmt ⟨none, none, none, some "YUY2"⟩ = false) := by
  obtain ⟨w, h, mn, mx, med, i⟩ := fmt
  refine ⟨?_, ?_, ?_, ?_⟩ <;> · intro hmed; simp only at hmed; subst hmed; rfl

/-- C8 witness. -/
theorem yuyv_yuy2_synonym_one_directional_witness :
    format_matches ⟨none, none, none, none, some "YUY2", 3⟩
      ⟨none, none, none, some "YUYV"⟩ = true ∧
    format_matches ⟨none, none, none, none, some "YUYV", 3⟩
      ⟨none, none, none, some "YUY2"⟩ = false :=
  ⟨(yuyv_yuy2_synonym_one_directional ⟨none, none, none, none, some "YUY2", 3⟩).1 rfl,
   (yuyv_yuy2_synonym_one_directional ⟨none, none, none, none, some "YUYV", 3⟩).2.2.2 rfl⟩

/-- C10: when at least one constraint is set, `_choose_format` returns the
first descriptor in enumeration order satisfying `_format_matches` (or
`none` if there is no match): every match has fps-distance 0 under the
clamp-based key, so the stable sort never reorders the matches. -/
theorem choose_format_eq_first_match (formats : List Fmt) (a : CapArgs)
    (h : hasConstraint a = true) :
    choose_format formats a = formats.find? (fun f => format_matches f a) := by
  rw [choose_format, if_pos h]
  simp only
  rw [← head?_filter_eq_find?]
  set ms := formats.filter (fun f => format_matches f a) with hms
  by_cases he : ms.isEmpty
  · rw [if_pos he]
    rw [List.isEmpty_iff] at he
    rw [he]
    rfl
  · rw [if_neg he]
    cases hq : fpsVal a with
    | none => rfl
    | some q =>
        have hz : ∀ f ∈ ms, fpsKey q f = 0 := by
          intro f hf
          rw [hms, List.mem_filter] at hf
          exact fpsKey_eq_zero_of_matches hq hf.2
        have hsorted : List.Sorted (fun f g => fpsKey q f ≤ fpsKey q g) ms := by
          apply pairwise_of_forall_mem
          intro x hx y hy
          rw [hz x hx, hz y hy]
        show (ms.insertionSort (fun f g => fpsKey q f ≤ fpsKey q g)).head? = ms.head?
        rw [hsorted.insertionSort_eq]

/-- C10 witness. -/
theorem choose_format_eq_first_match_witness :
    hasConstraint ⟨none, none, some 20, none⟩ = true ∧
    choose_format
        [⟨some 640, some 480, some 10, some 30, some "YUY2", 0⟩,
         ⟨some 640, some 480, some 15, some 25, some "YUY2", 1⟩]
        ⟨none, none, some 20, none⟩ =
      List.find? (fun f => format_matches f ⟨none, none, some 20, none⟩)
        [⟨some 640, some 480, some 10, some 30, some "YUY2", 0⟩,
         ⟨some 640, some 480, some 15, some 25, some "YUY2", 1⟩] :=
  ⟨by decide,
   choose_format_eq_first_match
     [⟨some 640, some 480, some 10, some 30, some "YUY2", 0⟩,
      ⟨some 640, some 480, some 15, some 25, some "YUY2", 1⟩]
     ⟨none, none, some 20, none⟩ (by decide)⟩

/-! ## Claims about the pygrabber backend's reported mode (C5) -/

/-- C5 counterexample: the claim asserts the negotiated fps reported after
acquisition is never an echo of the capture request.  On the pygrabber
backend, two requests (fps 20 and fps 25) that select the *same* format
descriptor (range 10..30) yield different reported fps values — each
exactly the requested one, and neither equal to any framerate the device
advertised (10 or 30) — so the reported fps echoes the request instead of
reading back device state. -/
theorem pygrabber_fps_echoes_request :
    ((open_pygrabber_capture [⟨some 640, some 480, some 10, some 30, some "YUY2", 0⟩]
        ⟨none, none, some 20, none⟩ (some (480, 640))).map pygrabber_get_fps = some 20)
  ∧ ((open_pygrabber_capture [⟨some 640, some 480, some 10, some 30, some "YUY2", 0⟩]
        ⟨none, none, some 25, none⟩ (some (480, 640))).map pygrabber_get_fps = some 25)
  ∧ choose_format [⟨some 640, some 480, some 10, some 30, some "YUY2", 0⟩]
        ⟨none, none, some 20, none⟩ =
      choose_format [⟨some 640, some 480, some 10, some 30, some "YUY2", 0⟩]
        ⟨none, none, some 25, none⟩
  ∧ (20 : ℚ) ≠ 25 ∧ (20 : ℚ) ≠ 30 ∧ (20 : ℚ) ≠ 10 := by
  refine ⟨rfl, rfl, rfl, by norm_num, by norm_num, by norm_num⟩

/-- C5 (amended): when the pygrabber backend selects a format, the reported
fps is the requested value whenever an fps constraint was set (an echo of
the request); only when no fps was requested is it taken from the selected
descriptor's `max_framerate`; and the reported pixel encoding is the
constant `"UNKNOWN"` (from `get(CAP_PROP_FOURCC) = 0.0`), not a value read
back from the device. -/
theorem pygrabber_reported_mode (formats : List Fmt) (a : CapArgs) (fmt : Fmt)
    (hsel : choose_format formats a = some fmt) :
    (∀ q : ℚ, fpsVal a = some q →
      pygrabber_get_fps (pygrabber_init formats a) = q)
  ∧ (fpsVal a = none →
      pygrabber_get_fps (pygrabber_init formats a) = fmt.max_framerate.getD 0)
  ∧ pygrabber_reported_fourcc (pygrabber_init formats a) = "UNKNOWN" := by
  refine ⟨?_, ?_, rfl⟩
  · intro q hq
    simp [pygrabber_get_fps, pygrabber_init, hsel, hq]
  · intro hq
    simp [pygrabber_get_fps, pygrabber_init, hsel, hq]

/-- C5 witness. -/
theorem pygrabber_reported_mode_witness :
    pygrabber_get_fps
        (pygrabber_init [⟨some 640, some 480, some 10, some 30, some "YUY2", 0⟩]
          ⟨none, none, some 20, none⟩) = 20 ∧
    pygrabber_reported_fourcc
        (pygrabber_init [⟨some 640, some 480, some 10, some 30, some "YUY2", 0⟩]
          ⟨none, none, some 20, none⟩) = "UNKNOWN" :=
  ⟨(pygrabber_reported_mode [⟨some 640, some 480, some 10, some 30, some "YUY2", 0⟩]
      ⟨none, none, some 20, none⟩ ⟨some 640, some 480, some 10, some 30, some "YUY2", 0⟩
      rfl).1 20 rfl,
   (pygrabber_reported_mode [⟨some 640, some 480, some 10, some 30, some "YUY2", 0⟩]
      ⟨none, none, some 20, none⟩ ⟨some 640, some 480, some 10, some 30, some "YUY2", 0⟩
      rfl).2.2⟩

/-! ## Claims about device resolution (C6, C7) -/

/-- C6 counterexample: the claim asserts that on every platform a plain
integer token like "0" resolves to the integer index 0.  On a non-Windows
platform, `resolve_device` returns the token verbatim as a string ("0"),
not the integer index 0. -/
theorem posix_digit_token_resolves_to_string :
    resolve_device false none ["/dev/video5"] (some "0") "MikrOkularHD" =
      .ok (.path "0", ["/dev/video5"])
  ∧ DeviceRef.path "0" ≠ DeviceRef.index 0 := by
  exact ⟨rfl, by decide⟩

/-- C6 (amended): only on Windows does a plain non-negative integer token
resolve to the integer index (still without consulting the enumerated
list — the result is the same for every enumeration outcome); on
non-Windows platforms every non-empty token, numeric or not, is returned
verbatim as a string device reference, also without validation. -/
theorem digit_token_resolution :
    (∀ (winDevices : Option (List String)) (v4l : List String) (arg : String)
        (pref : String), pyIsDigit (py_strip arg) = true →
        resolve_device true winDevices v4l (some arg) pref =
          .ok (.index (py_to_nat (py_strip arg)), winDevices.getD []))
  ∧ (∀ (winDevices : Option (List String)) (v4l : List String) (arg : String)
        (pref : String), arg ≠ "" →
        resolve_device false winDevices v4l (some arg) pref =
          .ok (.path arg, v4l)) := by
  constructor
  · intro winDevices v4l arg pref hdig
    simp [resolve_device, hdig]
  · intro winDevices v4l arg pref hne
    simp [resolve_device, hne]

/-- C6 witness. -/
theorem digit_token_resolution_witness :
    pyIsDigit (py_strip "0") = true ∧
    resolve_device true (some ["Integrated Cam"]) [] (some "0") "MikrOkularHD" =
      .ok (.index 0, ["Integrated Cam"]) ∧
    resolve_device false none ["/dev/video0"] (some "0") "MikrOkularHD" =
      .ok (.path "0", ["/dev/video0"]) :=
  ⟨by decide,
   (digit_token_resolution).1 (some ["Integrated Cam"]) [] "0" "MikrOkularHD" (by decide),
   (digit_token_resolution).2 none ["/dev/video0"] "0" "MikrOkularHD" (by decide)⟩

/-- C7 counterexample: the claim asserts that on every platform a
non-numeric token is matched as a case-insensitive substring against the
enumerated names, yielding the first matching index; on a non-Windows
platform the token "Mikro" is returned verbatim as a string device
reference, not resolved to index 1 of the enumerated list. -/
theorem posix_name_token_not_matched :
    resolve_device false none ["Integrated Cam", "MikrOkularHD"] (some "Mikro")
        "MikrOkularHD" = .ok (.path "Mikro", ["Integrated Cam", "MikrOkularHD"])
  ∧ DeviceRef.path "Mikro" ≠ DeviceRef.index 1 := by
  exact ⟨rfl, by decide⟩

/-- C7 (amended): the case-insensitive substring matching happens only on
Windows: there, a non-digit token with a non-empty enumeration resolves to
the index found by `_find_device_index`, and `_find_device_index` returns
precisely the first enumeration index whose lowercased name contains the
lowercased token. -/
theorem windows_name_token_first_match :
    (∀ (ds : List String) (v4l : List String) (arg pref : String) (i : Nat),
        pyIsDigit (py_strip arg) = false → ds ≠ [] →
        find_device_index (py_strip arg) ds = some i →
        resolve_device true (some ds) v4l (some arg) pref = .ok (.index i, ds))
  ∧ (∀ (name : String) (ds : List String) (i : Nat),
        find_device_index name ds = some i →
        ∃ d, ds[i]? = some d ∧ pyIn (lower_str name) (lower_str d) = true ∧
          ∀ j, j < i → ∀ e, ds[j]? = some e →
            pyIn (lower_str name) (lower_str e) = false) := by
  constructor
  · intro ds v4l arg pref i hdig hne hfind
    simp [resolve_device, hdig, hne, hfind]
  · intro name ds i hfind
    rw [find_device_index] at hfind
    have gen : ∀ (l : List String) (start i : Nat),
        find_device_index_from (lower_str name) start l = some i →
        start ≤ i ∧ ∃ d, l[i - start]? = some d ∧
          pyIn (lower_str name) (lower_str d) = true ∧
          ∀ j, start ≤ j → j < i → ∀ e, l[j - start]? = some e →
            pyIn (lower_str name) (lower_str e) = false := by
      intro l
      induction l with
      | nil => intro start i hf; simp [find_device_index_from] at hf
      | cons d ds ih =>
          intro start i hf
          rw [find_device_index_from] at hf
          by_cases hd : pyIn (lower_str name) (lower_str d) = true
          · rw [if_pos hd] at hf
            injection hf with hf
            subst hf
            refine ⟨le_refl _, ⟨d, ?_, hd, ?_⟩⟩
            · simp
            · intro j h1 h2 e _
              omega
          · rw [if_neg hd] at hf
            obtain ⟨hle, d', hget, hin, hrest⟩ := ih (start + 1) i hf
            refine ⟨by omega, ⟨d', ?_, hin, ?_⟩⟩
            · rw [← hget]
              have : i - start = (i - (start + 1)) + 1 := by omega
              rw [this]
              simp
            · intro j hj1 hj2 e hget'
              by_cases hjs : j = start
              · subst hjs
                simp at hget'
                subst hget'
                exact Bool.eq_false_iff.mpr hd
              · have hlt : start + 1 ≤ j := by omega
                have : j - start = (j - (start + 1)) + 1 := by omega
                rw [this] at hget'
                simp at hget'
                exact hrest j hlt hj2 e (by simpa using hget')
    obtain ⟨-, d, hget, hin, hrest⟩ := gen ds 0 i hfind
    refine ⟨d, by simpa using hget, hin, ?_⟩
    intro j hj e hget'
    exact hrest j (Nat.zero_le j) hj e (by simpa using hget')

/-- C7 witness: the spec's scenario B, on Windows: token "Mikro" against
the enumerated list yields device index 1, and that index is the first
case-insensitive substring match. -/
theorem windows_name_token_first_match_witness :
    resolve_device true (some ["Integrated Cam", "MikrOkularHD"]) []
        (some "Mikro") "MikrOkularHD" =
      .ok (.index 1, ["Integrated Cam", "MikrOkularHD"]) ∧
    ∃ d, ["Integrated Cam", "MikrOkularHD"][1]? = some d ∧
      pyIn (lower_str "Mikro") (lower_str d) = true ∧
      ∀ j, j < 1 → ∀ e, ["Integrated Cam", "MikrOkularHD"][j]? = some e →
        pyIn (lower_str "Mikro") (lower_str e) = false :=
  ⟨(windows_name_token_first_match).1 ["Integrated Cam", "MikrOkularHD"] []
      "Mikro" "MikrOkularHD" 1 (by decide) (by decide) (by decide),
   (windows_name_token_first_match).2 "Mikro" ["Integrated Cam", "MikrOkularHD"] 1
      (by decide)⟩

/-! ## Claim about the reconnect candidate replanning (C9) -/

/-- C9 counterexample: the claim quantifies over every last-known-good
backend in the base plan, but when the last-good backend is the pygrabber
candidate — whose API id is `None` (`backend_map["pygrabber"] = None`) —
the guard `active_backend is not None` fails and the Windows auto plan
`[dshow, msmf, any, pygrabber]` is left unchanged: pygrabber is *not*
moved to the front (`cv2.CAP_DSHOW = 700`, `CAP_MSMF = 1400`,
`CAP_ANY = 0`). -/
theorem pygrabber_last_good_not_fronted :
    replan_on_reconnect
        [("dshow", some 700), ("msmf", some 1400), ("any", some 0),
         ("pygrabber", none)] (some "pygrabber") none =
      [("dshow", some 700), ("msmf", some 1400), ("any", some 0),
       ("pygrabber", none)]
  ∧ [(("dshow" : String), (some 700 : Option Int)), ("msmf", some 1400),
      ("any", some 0), ("pygrabber", none)] ≠
      [(("pygrabber" : String), (none : Option Int)), ("dshow", some 700),
       ("msmf", some 1400), ("any", some 0)] := by
  exact ⟨rfl, by decide⟩

/-- C9 (amended): for every duplicate-free base plan and every
last-known-good candidate in it that has a non-null API id, the reconnect
plan is that candidate followed by the remaining base candidates, in
their original relative order, with that candidate removed — a
permutation of the base plan with no duplication (in particular,
`lastGood = v4l2` with base plan `[v4l2, any]` replans to `[v4l2, any]`
unchanged); but when the last-known-good candidate's API id is `None`
(the pygrabber backend), the plan is left entirely unchanged and the
candidate is not moved to the front. -/
theorem replan_moves_last_good_to_front (l1 l2 : List (String × Option Int))
    (lbl : String) (api : Int) (hlbl : lbl ≠ "")
    (hnd : (l1 ++ (lbl, some api) :: l2).Nodup) :
    replan_on_reconnect (l1 ++ (lbl, some api) :: l2) (some lbl) (some api) =
        (lbl, some api) :: (l1 ++ l2)
  ∧ (replan_on_reconnect (l1 ++ (lbl, some api) :: l2) (some lbl)
      (some api)).Perm (l1 ++ (lbl, some api) :: l2)
  ∧ (replan_on_reconnect (l1 ++ (lbl, some api) :: l2) (some lbl)
      (some api)).Nodup
  ∧ (∀ (base : List (String × Option Int)) (lastLabel : Option String),
      replan_on_reconnect base lastLabel none = base) := by
  have hnone : ∀ (base : List (String × Option Int))
      (lastLabel : Option String),
      replan_on_reconnect base lastLabel none = base := by
    intro base lastLabel
    cases lastLabel <;> rfl
  rw [List.nodup_append] at hnd
  have hx1 : (lbl, some api) ∉ l1 := fun hmem =>
    hnd.2.2 hmem (List.mem_cons_self _ _)
  have hx2 : (lbl, some api) ∉ l2 := by
    have h := hnd.2.1
    rw [List.nodup_cons] at h
    exact h.1
  have heq : replan_on_reconnect (l1 ++ (lbl, some api) :: l2) (some lbl)
      (some api) = (lbl, some api) :: (l1 ++ l2) := by
    rw [replan_on_reconnect, if_neg hlbl]
    congr 1
    rw [List.filter_append]
    have hf1 : List.filter (fun c => decide (c ≠ (lbl, some api))) l1 = l1 := by
      apply List.filter_eq_self.mpr
      intro c hc
      exact decide_eq_true (fun h => hx1 (h ▸ hc))
    have hf2 : List.filter (fun c => decide (c ≠ (lbl, some api)))
        ((lbl, some api) :: l2) = l2 := by
      rw [List.filter_cons]
      simp only [ne_eq, not_true_eq_false, decide_False, if_false]
      apply List.filter_eq_self.mpr
      intro c hc
      exact decide_eq_true (fun h => hx2 (h ▸ hc))
    rw [hf1, hf2]
  have hperm : (replan_on_reconnect (l1 ++ (lbl, some api) :: l2) (some lbl)
      (some api)).Perm (l1 ++ (lbl, some api) :: l2) := by
    rw [heq]
    exact List.perm_middle.symm
  refine ⟨heq, hperm, hperm.nodup_iff.mpr ?_, hnone⟩
  rw [List.nodup_append]
  exact hnd

/-- C9 witness: the spec's concrete scenario, `lastGood = v4l2` with base
plan `[v4l2, any]` (`cv2.CAP_V4L2 = 200`, `cv2.CAP_ANY = 0`): replanning
yields `[v4l2, any]` unchanged. -/
theorem replan_moves_last_good_to_front_witness :
    replan_on_reconnect [("v4l2", some 200), ("any", some 0)]
        (some "v4l2") (some 200) = [("v4l2", some 200), ("any", some 0)] :=
  ((replan_moves_last_good_to_front [] [("any", some 0)]
      "v4l2" 200 (by decide) (by decide)).1).trans (by decide)

/-! ## Claims about the streaming loop (C1-C4) -/

/-- C1: on a failed read the loop increments `consecutive_failures`; while
the incremented counter is still below `max_empty` the session stays
streaming, sleeping ~10ms before the next read; once it reaches
`max_empty`, if auto-retry is off or `reconnects >= max_reconnects` it
stops with the signal-lost report, and otherwise it enters recovery,
whose first actions are releasing the handle, waiting `retry_delay`, and
re-acquiring. -/
theorem stream_loop_failed_read_step (a : LoopArgs) (cf rc : Nat)
    (rs : List ReadEv) (qs : List ReacqEv) :
    (cf + 1 < a.max_empty →
      stream_loop a cf rc (ReadEv.fail :: rs) qs =
        (stream_loop a (cf + 1) rc rs qs).push .sleep10)
  ∧ (a.max_empty ≤ cf + 1 → (a.auto_retry = false ∨ a.max_reconnects ≤ rc) →
      stream_loop a cf rc (ReadEv.fail :: rs) qs =
        { trace := [.stop .signalLost], stopped := some .signalLost,
          captureOpen := true })
  ∧ (a.max_empty ≤ cf + 1 → a.auto_retry = true → rc < a.max_reconnects →
      (stream_loop a cf rc (ReadEv.fail :: rs) qs).trace.take 3 =
        [.release, .waitRetry, .reacquire]) := by
  refine ⟨?_, ?_, ?_⟩
  · intro hlt
    rw [stream_loop.eq_def]
    dsimp only
    rw [if_pos hlt]
  · intro hge hstop
    rw [stream_loop.eq_def]
    dsimp only
    rw [if_neg (by omega), if_pos hstop]
  · intro hge hretry hrc
    rw [stream_loop.eq_def]
    dsimp only
    rw [if_neg (by omega), if_neg (by simp [hretry]; omega)]
    cases qs with
    | nil => rfl
    | cons q qs' =>
        cases q with
        | ok f cont => cases cont <;> rfl
        | fail => rfl

/-- C1 witness. -/
theorem stream_loop_failed_read_step_witness :
    (stream_loop ⟨60, 5, true⟩ 0 0 [ReadEv.fail] [] =
      (stream_loop ⟨60, 5, true⟩ 1 0 [] []).push .sleep10)
  ∧ (stream_loop ⟨1, 5, false⟩ 0 0 [ReadEv.fail] [] =
      { trace := [.stop .signalLost], stopped := some .signalLost,
        captureOpen := true })
  ∧ ((stream_loop ⟨1, 5, true⟩ 0 0 [ReadEv.fail] [ReacqEv.fail]).trace.take 3 =
      [.release, .waitRetry, .reacquire]) :=
  ⟨(stream_loop_failed_read_step ⟨60, 5, true⟩ 0 0 [] []).1 (by decide),
   (stream_loop_failed_read_step ⟨1, 5, false⟩ 0 0 [] []).2.1 (by decide)
     (Or.inl rfl),
   (stream_loop_failed_read_step ⟨1, 5, true⟩ 0 0 [] [ReacqEv.fail]).2.2
     (by decide) rfl (by decide)⟩

/-- C2 counterexample: with `max_reconnects = 2` (here `max_empty = 2`,
auto-retry on) and every re-acquisition failing, the session stops after
exactly ONE reconnect attempt, not two: a failed re-acquisition is
immediately terminal, and the `reconnects` counter (which only counts
successful re-acquisitions) never reaches the bound. -/
theorem reconnect_failure_stops_after_one_attempt :
    (stream_loop ⟨2, 2, true⟩ 0 0 [ReadEv.fail, ReadEv.fail] [ReacqEv.fail]).stopped
        = some .unableToRecover
  ∧ (stream_loop ⟨2, 2, true⟩ 0 0 [ReadEv.fail, ReadEv.fail]
        [ReacqEv.fail]).trace.count .reacquire = 1
  ∧ (1 : Nat) ≠ 2 := by
  refine ⟨rfl, by decide, by decide⟩

/-- C2 (amended): whenever recovery is entered (failure threshold reached,
auto-retry on, reconnect counter below the bound) and the re-acquisition
fails, the session stops at once with the unable-to-recover report after
exactly one reconnect attempt, and the capture handle is released before
the stop is observable (the release action precedes the stop in the
trace). -/
theorem failed_reacquisition_terminal (a : LoopArgs) (cf rc : Nat)
    (rs : List ReadEv) (qs : List ReacqEv)
    (hge : a.max_empty ≤ cf + 1) (hretry : a.auto_retry = true)
    (hrc : rc < a.max_reconnects) :
    stream_loop a cf rc (ReadEv.fail :: rs) (ReacqEv.fail :: qs) =
      { trace := [.release, .waitRetry, .reacquire, .stop .unableToRecover],
        stopped := some .unableToRecover, captureOpen := false } := by
  rw [stream_loop.eq_def]
  dsimp only
  rw [if_neg (by omega), if_neg (by simp [hretry]; omega)]

/-- C2 witness: the claim's scenario with `max_reconnects = 2`
(`max_empty = 1`): the resulting trace holds exactly one reconnect
attempt, with the release strictly before the stop. -/
theorem failed_reacquisition_terminal_witness :
    stream_loop ⟨1, 2, true⟩ 0 0 [ReadEv.fail] [ReacqEv.fail] =
      { trace := [.release, .waitRetry, .reacquire, .stop .unableToRecover],
        stopped := some .unableToRecover, captureOpen := false } :=
  failed_reacquisition_terminal ⟨1, 2, true⟩ 0 0 [] [] (by decide) rfl
    (by decide)

/-- C3 counterexample: with `max_reconnects = 1` (`max_empty = 1`), a
session that alternates a failure run with a successful reconnect performs
2 reconnect (release-wait-reacquire) cycles — more than `max_reconnects` —
and is still streaming, because the primed frame consumed after each
successful reconnect resets the `reconnects` counter to 0. -/
theorem reconnect_cycles_exceed_max_reconnects :
    (stream_loop ⟨1, 1, true⟩ 0 0 [ReadEv.fail, ReadEv.fail]
        [ReacqEv.ok 7 true, ReacqEv.ok 8 true]).trace.count .reacquire = 2
  ∧ (stream_loop ⟨1, 1, true⟩ 0 0 [ReadEv.fail, ReadEv.fail]
        [ReacqEv.ok 7 true, ReacqEv.ok 8 true]).stopped = none
  ∧ 1 < 2 := by
  refine ⟨by decide, rfl, by decide⟩

/-- One full failure-then-successful-reconnect cycle of the loop with
`max_empty = 1` and `max_reconnects = 1`. -/
theorem stream_loop_reconnect_cycle (rs : List ReadEv) (qs : List ReacqEv) :
    stream_loop ⟨1, 1, true⟩ 0 0 (ReadEv.fail :: rs) (ReacqEv.ok 7 true :: qs) =
      ((((stream_loop ⟨1, 1, true⟩ 0 0 rs qs).push (.render 7)).push
        .reacquire).push .waitRetry).push .release := by
  rfl

/-- C3 (amended): `reconnect_count` does not bound the total number of
reconnect cycles over the session's lifetime: it is reset to 0 by every
successful frame, including the primed frame consumed right after each
successful re-acquisition, so with auto-retry on and
`max_reconnects = 1` the session performs `n` reconnect cycles — for every
`n` — without ever stopping. -/
theorem reconnect_counter_reset_unbounded_cycles (n : Nat) :
    (stream_loop ⟨1, 1, true⟩ 0 0 (List.replicate n ReadEv.fail)
        (List.replicate n (ReacqEv.ok 7 true))).trace.count .reacquire = n
  ∧ (stream_loop ⟨1, 1, true⟩ 0 0 (List.replicate n ReadEv.fail)
        (List.replicate n (ReacqEv.ok 7 true))).stopped = none := by
  induction n with
  | zero => exact ⟨rfl, rfl⟩
  | succ n ih =>
      rw [List.replicate_succ, List.replicate_succ, stream_loop_reconnect_cycle]
      refine ⟨?_, ?_⟩
      · simp [RunResult.push, List.count_cons, ih.1]
      · simp [RunResult.push, ih.2]

/-- C4: the code contradicts the claim on the failed-re-acquisition exit
path.  On the operator-quit and signal-lost paths the loop exits with the
handle still held, and the `finally` cleanup (`capture.release()` then
`shutdown_display`) completes; but when recovery's re-acquisition fails,
the loop exits with `capture = None`, and the `finally` block's
`capture.release()` raises `AttributeError` on `None`, so cleanup does not
run to completion. -/
theorem cleanup_raises_on_failed_reacquisition :
    ((stream_loop ⟨60, 5, true⟩ 0 0 [ReadEv.ok 7 false] []).stopped =
        some .operatorQuit
      ∧ finally_cleanup (stream_loop ⟨60, 5, true⟩ 0 0
          [ReadEv.ok 7 false] []).captureOpen = .ok ())
  ∧ ((stream_loop ⟨1, 5, false⟩ 0 0 [ReadEv.fail] []).stopped =
        some .signalLost
      ∧ finally_cleanup (stream_loop ⟨1, 5, false⟩ 0 0
          [ReadEv.fail] []).captureOpen = .ok ())
  ∧ ((stream_loop ⟨1, 5, true⟩ 0 0 [ReadEv.fail] [ReacqEv.fail]).stopped =
        some .unableToRecover
      ∧ (stream_loop ⟨1, 5, true⟩ 0 0 [ReadEv.fail]
          [ReacqEv.fail]).captureOpen = false
      ∧ finally_cleanup (stream_loop ⟨1, 5, true⟩ 0 0 [ReadEv.fail]
          [ReacqEv.fail]).captureOpen =
        .error "AttributeError: NoneType has no release") := by
  exact ⟨⟨rfl, rfl⟩, ⟨rfl, rfl⟩, ⟨rfl, rfl, rfl⟩⟩

end ScopeView
